import Mathlib

/-!
Shallow embedding of the ramen-cc-ims-data-script repository: the card and
product normalizers, the series-cache build/load paths, the JSON cache
round-trip, and the combined export pipeline, with theorems settling the
spec claims.
-/

/-- Python `str.lower()` restricted to ASCII, as used on set codes. -/
def strLower (s : String) : String := String.mk (s.data.map Char.toLower)

/-- Python `str.capitalize()`: first character uppercased, the rest lowercased. -/
def pyCapitalize (s : String) : String :=
  match s.data with
  | [] => ""
  | c :: cs => String.mk (c.toUpper :: cs.map Char.toLower)

/-- Helper for `pyTitle`: tracks whether the previous character was cased. -/
def pyTitleAux : Bool → List Char → List Char
  | _, [] => []
  | prevCased, c :: cs =>
    if c.isAlpha then
      (if prevCased then c.toLower else c.toUpper) :: pyTitleAux true cs
    else
      c :: pyTitleAux false cs

/-- Python `str.title()`: each maximal run of letters has its first letter
uppercased and the rest lowercased. -/
def pyTitle (s : String) : String := String.mk (pyTitleAux false s.data)

/-- Association-list model of a Python `dict.get(k)` on `str -> str` dicts. -/
def dictGet (m : List (String × String)) (k : String) : Option String :=
  (m.find? (fun p => p.1 = k)).map (fun p => p.2)

/-- Python `dict[k] = v`: overwrite in place if the key exists, else append. -/
def dictInsert (m : List (String × String)) (k v : String) :
    List (String × String) :=
  if m.any (fun p => p.1 = k) then
    m.map (fun p => if p.1 = k then (k, v) else p)
  else
    m ++ [(k, v)]

/-- A TCGdex card brief, with the fields the scripts read. -/
structure RawCard where
  id : String
  name : String
  localId : String
  image : String
deriving DecidableEq

/-- A PokéData product record; `Option` models presence of a JSON key. -/
structure RawProduct where
  id : Option String
  name : Option String
  img_url : Option String
  language : Option String
  series : Option String
  market_value : Option Rat
deriving DecidableEq

/-- One normalized output row of the e-commerce CSV schema. -/
structure CatalogRow where
  handleId : String
  name : String
  productImageUrl : String
  collection : String
  sku : String
  price : Rat
  inventory : Nat
  discountMode : String
  visible : String
  ribbon : String
  weight : Nat
deriving DecidableEq

/-- Characters before the first dash, at the char level. -/
def takeUntilDash : List Char → List Char
  | [] => []
  | c :: cs => if c = '-' then [] else c :: takeUntilDash cs

/-- Computes the substring of the card id before the first dash, lowercased,
modelling the split-on-dash-take-first-then-lower of the source. -/
def full_set_code (id : String) : String :=
  strLower (String.mk (takeUntilDash id.data))

/-- Function `transform_card` from generate_card_data_script.py. -/
def transform_card (card : RawCard) (series_mapping : List (String × String)) :
    CatalogRow :=
  let code := full_set_code card.id
  let series_name := (dictGet series_mapping code).getD "Unknown"
  let image_url := card.image ++ "/high.webp"
  { handleId := card.id
    name := card.name ++ " #" ++ card.localId
    productImageUrl := image_url
    collection := "English;" ++ series_name ++ " Era; Raw Single"
    sku := card.id
    price := 0
    inventory := 0
    discountMode := "amount"
    visible := "true"
    ribbon := ""
    weight := 0 }

/-- Function `transform_card` from generate_combined_csv_script.py (note: its
collection string has no space before "Raw Single"). -/
def transform_card_combined (card : RawCard)
    (series_mapping : List (String × String)) : CatalogRow :=
  let code := full_set_code card.id
  let series_name := (dictGet series_mapping code).getD "Unknown"
  let image_url := card.image ++ "/high.webp"
  { handleId := card.id
    name := card.name ++ " #" ++ card.localId
    productImageUrl := image_url
    collection := "English;" ++ series_name ++ " Era;Raw Single"
    sku := card.id
    price := 0
    inventory := 0
    discountMode := "amount"
    visible := "true"
    ribbon := ""
    weight := 0 }

/-- Python `product["k"]`: direct key access, raising `KeyError` when absent. -/
def requireField {α : Type} (v : Option α) (k : String) : Except String α :=
  match v with
  | some x => Except.ok x
  | none => Except.error ("KeyError: " ++ k)

/-- Function `transform_product`, identical in generate_product_data_script.py and
generate_combined_csv_script.py. -/
def transform_product (product : RawProduct) : Except String CatalogRow := do
  let language_pascal := pyCapitalize (product.language.getD "")
  let series_pascal :=
    match product.series with
    | some s => if s = "" then "" else pyTitle s
    | none => ""
  let collection :=
    if series_pascal = "" then
      language_pascal ++ ";Sealed Product"
    else
      language_pascal ++ ";" ++ series_pascal ++ " era;Sealed Product"
  let id ← requireField product.id "id"
  let nm ← requireField product.name "name"
  let img ← requireField product.img_url "img_url"
  let mv ← requireField product.market_value "market_value"
  pure
    { handleId := id
      name := nm
      productImageUrl := img
      collection := collection
      sku := id
      price := mv
      inventory := 0
      discountMode := "amount"
      visible := "true"
      ribbon := ""
      weight := 0 }

/-- A series brief, as returned by `tcgdex.serie.list()`. -/
structure SerieBrief where
  id : String
deriving DecidableEq

/-- A set resume inside a detailed series record. -/
structure SetResume where
  id : String
deriving DecidableEq

/-- A detailed series record, as returned by `tcgdex.serie.get(id)`. -/
structure SerieDetail where
  name : String
  sets : List SetResume
deriving DecidableEq

/-- A set brief from `tcgdex.set.list()`; `series` models
`getattr(s, "series", None)`. -/
structure SetBrief where
  id : String
  series : Option String
deriving DecidableEq

/-- The remote TCGdex source, abstracted as the data each endpoint returns. -/
structure TCGdexApi where
  serieList : List SerieBrief
  serieGet : String → SerieDetail
  setList : List SetBrief

/-- One remote call made against the TCGdex source. -/
inductive ApiCall where
  | serieList : ApiCall
  | serieGet : String → ApiCall
  | setList : ApiCall
deriving DecidableEq

/-- Observable outcome of a cache-loading run: the returned mapping, the
remote calls made (in order), and what was persisted to the cache file. -/
structure CacheRun where
  cache : List (String × String)
  calls : List ApiCall
  written : Option (List (String × String))
deriving DecidableEq

/-- Function `build_series_cache` from generate_series_cache_script.py: list the
series, fetch each detail sequentially, and map each owned set id
(lowercased) to the series name. Returns the mapping and the call trace. -/
def build_series_cache (api : TCGdexApi) :
    List (String × String) × List ApiCall :=
  let step := fun (acc : List (String × String)) (brief : SerieBrief) =>
    let detailed := api.serieGet brief.id
    detailed.sets.foldl
      (fun m sr => dictInsert m (strLower sr.id) detailed.name) acc
  (api.serieList.foldl step [],
    ApiCall.serieList :: api.serieList.map (fun b => ApiCall.serieGet b.id))

/-- Function `main` of generate_series_cache_script.py, up to the cache value: load
the persisted file if present, else build via `build_series_cache` and
persist before returning. `cacheFile` is the persisted contents, if any. -/
def series_cache_main (cacheFile : Option (List (String × String)))
    (api : TCGdexApi) : CacheRun :=
  match cacheFile with
  | some c => ⟨c, [], none⟩
  | none =>
    let built := build_series_cache api
    ⟨built.1, built.2, some built.1⟩

/-- Function `load_series_cache` from generate_card_data_script.py and
generate_combined_csv_script.py: load the persisted file if present, else
fetch the flat set list once and map each lowercased set id to that same set
own `series` attribute, defaulting to "Unknown", persisting the result. -/
def load_series_cache (cacheFile : Option (List (String × String)))
    (api : TCGdexApi) : CacheRun :=
  match cacheFile with
  | some c => ⟨c, [], none⟩
  | none =>
    let m := api.setList.foldl
      (fun acc s => dictInsert acc (strLower s.id) (s.series.getD "Unknown")) []
    ⟨m, [ApiCall.setList], some m⟩

/-- Modelled from the spec: the `load(cacheLocation, seriesSource)` contract
of the Series Lookup Cache component, as the claim states it — on a hit
return the file verbatim with no remote calls and no write; on a miss list
the series, fetch each detail sequentially in order, insert
`lowercase(setId) -> detail.name` for every owned set, and persist the
complete mapping before returning. -/
def load_spec (cacheFile : Option (List (String × String)))
    (api : TCGdexApi) : CacheRun :=
  match cacheFile with
  | some c => ⟨c, [], none⟩
  | none =>
    let mapping := api.serieList.foldl
      (fun acc brief =>
        let detail := api.serieGet brief.id
        detail.sets.foldl
          (fun m sr => dictInsert m (strLower sr.id) detail.name) acc) []
    ⟨mapping,
      ApiCall.serieList :: api.serieList.map (fun b => ApiCall.serieGet b.id),
      some mapping⟩

/-- JSON values, as far as the cache file format needs them. -/
inductive JVal where
  | null : JVal
  | bool : Bool → JVal
  | str : String → JVal
  | arr : List JVal → JVal
  | obj : List (String × JVal) → JVal

/-- Models `json.dump(series_mapping, f, indent=2)`: the cache dict serializes to a
JSON object whose values are the series-name strings. -/
def jsonDumpCache (m : List (String × String)) : JVal :=
  JVal.obj (m.map (fun kv => (kv.1, JVal.str kv.2)))

/-- Decode the entries of a JSON object back into a string-to-string dict;
fails on any non-string value. -/
def decodeEntries : List (String × JVal) → Option (List (String × String))
  | [] => some []
  | (k, JVal.str v) :: rest =>
    (decodeEntries rest).map (fun r => (k, v) :: r)
  | _ => none

/-- Models `json.load(f)` on the cache file: succeeds on a flat object of strings. -/
def jsonLoadCache : JVal → Option (List (String × String))
  | JVal.obj kvs => decodeEntries kvs
  | _ => none

/-- The product half of `main` in generate_combined_csv_script.py: the
try/except around fetch + transform contributes the transformed rows, or no
rows at all when anything in the stage raises. -/
def product_stage (fetch : Except String (List RawProduct)) :
    List CatalogRow :=
  match fetch.bind (fun ps => ps.mapM transform_product) with
  | Except.ok rows => rows
  | Except.error _ => []

/-- The card half of `main` in generate_combined_csv_script.py: on success
`fetch_card_data` yields the card briefs and the series cache, and every
card is transformed; any failure contributes no rows. -/
def card_stage
    (fetch : Except String (List RawCard × List (String × String))) :
    List CatalogRow :=
  match fetch with
  | Except.ok (cards, cache) =>
    cards.map (fun c => transform_card_combined c cache)
  | Except.error _ => []

/-- Function `main` of generate_combined_csv_script.py, up to the row sequence:
product rows first, then card rows. -/
def combined_main (pf : Except String (List RawProduct))
    (cf : Except String (List RawCard × List (String × String))) :
    List CatalogRow :=
  product_stage pf ++ card_stage cf

/-- The constant-field invariants every normalized row is claimed to keep. -/
def rowInv (r : CatalogRow) : Prop :=
  r.handleId = r.sku ∧ r.discountMode = "amount" ∧ r.visible = "true" ∧
    r.inventory = 0 ∧ r.weight = 0 ∧ r.ribbon = ""

/-- The worked example card of the spec. -/
def exCard : RawCard := ⟨"swsh8-150", "Froslass", "150", "https://x/img"⟩

/-- The worked example cache of the spec. -/
def exCache : List (String × String) := [("swsh8", "Sword & Shield")]

/-- The worked example product of the spec, with all fields present. -/
def exProduct : RawProduct :=
  ⟨some "p1", some "Booster Box", some "https://x/p", some "english",
    some "sword and shield", some (12.5 : Rat)⟩

/-- The row `transform_product` produces for `exProduct`. -/
def exRow : CatalogRow :=
  { handleId := "p1"
    name := "Booster Box"
    productImageUrl := "https://x/p"
    collection := "English;Sword And Shield era;Sealed Product"
    sku := "p1"
    price := (12.5 : Rat)
    inventory := 0
    discountMode := "amount"
    visible := "true"
    ribbon := ""
    weight := 0 }

/-- A TCGdex source where the set brief lacks a `series` attribute while the
series detail does own the set. -/
def exApi : TCGdexApi :=
  ⟨[⟨"swsh"⟩], fun _ => ⟨"Sword & Shield", [⟨"swsh8"⟩]⟩, [⟨"swsh8", none⟩]⟩

lemma strEmpty_append (a : String) : "" ++ a = a := by
  obtain ⟨l⟩ := a
  rfl

lemma strAppend_assoc (a b c : String) : a ++ b ++ c = a ++ (b ++ c) := by
  obtain ⟨la⟩ := a
  obtain ⟨lb⟩ := b
  obtain ⟨lc⟩ := c
  show String.mk (la ++ lb ++ lc) = String.mk (la ++ (lb ++ lc))
  rw [List.append_assoc]

lemma pyTitleAux_length (b : Bool) (l : List Char) :
    (pyTitleAux b l).length = l.length := by
  induction l generalizing b with
  | nil => rfl
  | cons c cs ih =>
    unfold pyTitleAux
    by_cases hc : c.isAlpha <;> simp [hc, ih]

lemma pyTitle_ne_empty {s : String} (h : s ≠ "") : pyTitle s ≠ "" := by
  intro hcon
  apply h
  have hd : pyTitleAux false s.data = [] := congrArg String.data hcon
  have hlen : s.data.length = 0 := by
    rw [← pyTitleAux_length false s.data, hd]
    rfl
  obtain ⟨l⟩ := s
  simp at hlen
  simp [hlen]

lemma decodeEntries_dump (m : List (String × String)) :
    decodeEntries (m.map (fun kv => (kv.1, JVal.str kv.2))) = some m := by
  induction m with
  | nil => rfl
  | cons kv rest ih => simp [decodeEntries, ih]

/-- Claim C1: the card normalizer maps id to handleId/sku, builds
"{name} #{localId}", appends "/high.webp", and emits the collection string
"English;{seriesName} Era; Raw Single" with a space after the second
semicolon. The copy in generate_card_data_script.py does; the copy in
generate_combined_csv_script.py emits "Era;Raw Single" with no space,
contradicting its own docstring. This theorem evaluates both at the worked
example. -/
theorem c1_combined_collection_bug :
    transform_card exCard exCache =
      { handleId := "swsh8-150"
        name := "Froslass #150"
        productImageUrl := "https://x/img/high.webp"
        collection := "English;Sword & Shield Era; Raw Single"
        sku := "swsh8-150"
        price := 0
        inventory := 0
        discountMode := "amount"
        visible := "true"
        ribbon := ""
        weight := 0 }
    ∧ (transform_card_combined exCard exCache).collection =
        "English;Sword & Shield Era;Raw Single"
    ∧ "English;Sword & Shield Era;Raw Single" ≠
        "English;Sword & Shield Era; Raw Single" := by
  refine ⟨by decide, by decide, by decide⟩

/-- Claim C2 counterexample: on a cache miss, the `load_series_cache` used by
the card and combined scripts does not fetch any per-series detail record as
the claim describes — it makes a single set-list call and reads the own
`series` attribute of each set brief. On a source whose set brief lacks that attribute it
returns "Unknown" where the claimed algorithm returns the series name, and
its call trace differs. -/
theorem c2_counterexample :
    load_series_cache none exApi ≠ load_spec none exApi
    ∧ (load_series_cache none exApi).cache = [("swsh8", "Unknown")]
    ∧ (load_spec none exApi).cache = [("swsh8", "Sword & Shield")]
    ∧ (load_series_cache none exApi).calls = [ApiCall.setList]
    ∧ (load_spec none exApi).calls =
        [ApiCall.serieList, ApiCall.serieGet "swsh"] := by
  refine ⟨by decide, by decide, by decide, by decide, by decide⟩

/-- Claim C2, amended: the load path of the dedicated cache script implements the
claimed behavior exactly (hit: return the file verbatim with no remote calls
and no write; miss: series list, sequential per-series detail fetches in
order, lowercase set-id keys, persist before returning). The
`load_series_cache` of the card and combined scripts shares the hit path and
persists what it returns, but on a miss makes exactly one set-list call
instead of per-series detail fetches. -/
theorem c2_amended_load_behavior (cacheFile : Option (List (String × String)))
    (api : TCGdexApi) (c : List (String × String)) :
    series_cache_main cacheFile api = load_spec cacheFile api
    ∧ load_series_cache (some c) api = ⟨c, [], none⟩
    ∧ (load_series_cache none api).calls = [ApiCall.setList]
    ∧ (load_series_cache none api).written =
        some (load_series_cache none api).cache := by
  refine ⟨?_, rfl, rfl, rfl⟩
  cases cacheFile <;> rfl

/-- Claim C9: persisting a series cache as JSON and loading it back yields
an identical mapping. -/
theorem c9_cache_roundtrip (m : List (String × String)) :
    jsonLoadCache (jsonDumpCache m) = some m := by
  simpa [jsonLoadCache, jsonDumpCache] using decodeEntries_dump m

/-- Claim C3: in a combined run the failure of each source is isolated — a failed
product fetch with a succeeding card fetch yields exactly the card rows in
card order, and when both stages succeed the output is all product rows (in
fetch order) followed by all card rows (in fetch order). -/
theorem c3_per_source_isolation
    (pf : Except String (List RawProduct)) (cards : List RawCard)
    (cache : List (String × String)) :
    ((∃ e, pf = Except.error e) →
      combined_main pf (Except.ok (cards, cache)) =
        cards.map (fun c => transform_card_combined c cache))
    ∧ (∀ ps prows, pf = Except.ok ps →
        ps.mapM transform_product = Except.ok prows →
        combined_main pf (Except.ok (cards, cache)) =
          prows ++ cards.map (fun c => transform_card_combined c cache)) := by
  constructor
  · rintro ⟨e, rfl⟩
    rfl
  · rintro ps prows rfl h
    simp only [combined_main, product_stage, card_stage, Except.bind]
    rw [h]

/-- Witness for claim C3 at the worked example card, cache and product. -/
theorem c3_per_source_isolation_witness :
    (combined_main (Except.error "boom") (Except.ok ([exCard], exCache)) =
      [exCard].map (fun c => transform_card_combined c exCache))
    ∧ (combined_main (Except.ok [exProduct]) (Except.ok ([exCard], exCache)) =
      [exRow] ++ [exCard].map (fun c => transform_card_combined c exCache)) :=
  ⟨(c3_per_source_isolation (Except.error "boom") [exCard] exCache).1
      ⟨"boom", rfl⟩,
    (c3_per_source_isolation (Except.ok [exProduct]) [exCard] exCache).2
      [exProduct] [exRow] rfl (by rfl)⟩

/-- Claim C4: with all required fields present, the product normalizer emits
the three-segment collection "{language};{title(series)} era;Sealed Product"
when series is present and non-empty, the two-segment
"{language};Sealed Product" when series is absent or empty, and passes
market_value through as the price. -/
theorem c4_product_collection (langv serv : Option String)
    (idv namev imgv s : String) (mv : Rat)
    (hs : serv = some s) (hne : s ≠ "") :
    (∃ row,
      transform_product
          ⟨some idv, some namev, some imgv, langv, serv, some mv⟩ =
        Except.ok row
      ∧ row.price = mv
      ∧ row.collection =
          pyCapitalize (langv.getD "") ++ ";" ++ pyTitle s ++
            " era;Sealed Product")
    ∧ ∀ serv2, serv2 = none ∨ serv2 = some "" →
      ∃ row,
        transform_product
            ⟨some idv, some namev, some imgv, langv, serv2, some mv⟩ =
          Except.ok row
        ∧ row.price = mv
        ∧ row.collection = pyCapitalize (langv.getD "") ++ ";Sealed Product" := by
  subst hs
  constructor
  · refine ⟨_, rfl, rfl, ?_⟩
    simp [hne, pyTitle_ne_empty hne]
  · rintro serv2 (rfl | rfl)
    · exact ⟨_, rfl, rfl, rfl⟩
    · exact ⟨_, rfl, rfl, rfl⟩

/-- Witness for claim C4 at the worked product example of the spec, with the
evaluated collection string. -/
theorem c4_product_collection_witness :
    (∃ row,
      transform_product exProduct = Except.ok row
      ∧ row.price = (12.5 : Rat)
      ∧ row.collection =
          pyCapitalize ((some "english" : Option String).getD "") ++ ";" ++
            pyTitle "sword and shield" ++ " era;Sealed Product")
    ∧ pyCapitalize ((some "english" : Option String).getD "") ++ ";" ++
        pyTitle "sword and shield" ++ " era;Sealed Product" =
      "English;Sword And Shield era;Sealed Product" :=
  ⟨(c4_product_collection (some "english") (some "sword and shield") "p1"
      "Booster Box" "https://x/p" "sword and shield" 12.5 rfl
      (by decide)).1,
    by decide⟩

/-- Claim C5 counterexample: the claim says only the leading character is
capitalized and the rest is left as it was, which on language "eNGLISH"
would give "ENGLISH;Sealed Product"; the `str.capitalize()` in the code also
lowercases the tail, producing "English;Sealed Product". -/
theorem c5_counterexample :
    (transform_product
        ⟨some "p1", some "Box", some "https://x/p", some "eNGLISH", none,
          some 1⟩).map (fun r => r.collection) =
      Except.ok "English;Sealed Product"
    ∧ "English;Sealed Product" ≠ "ENGLISH;Sealed Product" :=
  ⟨rfl, by decide⟩

/-- Claim C5, amended: the product normalizer uppercases the leading
character of the language and lowercases every remaining character (Python
`str.capitalize()`); multi-word values are still not fully title-cased, and
"english" becomes "English". The collection always begins with that
capitalized language followed by ";". -/
theorem c5_amended_capitalize (langv serv : Option String)
    (idv namev imgv : String) (mv : Rat) :
    (∃ rest row,
      transform_product
          ⟨some idv, some namev, some imgv, langv, serv, some mv⟩ =
        Except.ok row
      ∧ row.collection = pyCapitalize (langv.getD "") ++ ";" ++ rest)
    ∧ pyCapitalize "english" = "English"
    ∧ pyCapitalize "hello world" = "Hello world"
    ∧ pyCapitalize "eNGLISH" = "English" := by
  refine ⟨?_, by decide, by decide, by decide⟩
  cases serv with
  | none =>
    refine ⟨"Sealed Product", _, rfl, ?_⟩
    show pyCapitalize (langv.getD "") ++ ";Sealed Product" =
      pyCapitalize (langv.getD "") ++ ";" ++ "Sealed Product"
    rw [strAppend_assoc, show (";" ++ "Sealed Product" : String) =
      ";Sealed Product" from by decide]
  | some s =>
    by_cases hse : s = ""
    · subst hse
      refine ⟨"Sealed Product", _, rfl, ?_⟩
      show pyCapitalize (langv.getD "") ++ ";Sealed Product" =
        pyCapitalize (langv.getD "") ++ ";" ++ "Sealed Product"
      rw [strAppend_assoc, show (";" ++ "Sealed Product" : String) =
        ";Sealed Product" from by decide]
    · refine ⟨pyTitle s ++ " era;Sealed Product", _, rfl, ?_⟩
      simp [hse, pyTitle_ne_empty hse, strAppend_assoc]

/-- Claim C6: the product normalizer fails with a missing-field error
exactly when one of id, name, img_url or market_value is absent. -/
theorem c6_missing_field_iff (p : RawProduct) :
    (∃ e, transform_product p = Except.error e) ↔
      (p.id = none ∨ p.name = none ∨ p.img_url = none ∨
        p.market_value = none) := by
  obtain ⟨pid, pname, pimg, plang, pser, pmv⟩ := p
  cases pid <;> cases pname <;> cases pimg <;> cases pmv <;>
    first
      | exact ⟨fun h => Except.noConfusion h.choose_spec,
          fun h => by rcases h with h | h | h | h <;> exact Option.noConfusion h⟩
      | exact ⟨fun _ => by simp, fun _ => ⟨_, rfl⟩⟩

/-- Claim C7: the card normalizer never fails; it looks the series up under
the lowercased substring of the card id before the first dash, "SWSH8-150"
and "swsh8-7" both resolve via key "swsh8", and an absent key degrades to
the literal series name "Unknown" in both script variants. -/
theorem c7_lookup_fallback (card : RawCard) (cache : List (String × String))
    (h : dictGet cache (full_set_code card.id) = none) :
    (transform_card card cache).collection = "English;Unknown Era; Raw Single"
    ∧ (transform_card_combined card cache).collection =
        "English;Unknown Era;Raw Single"
    ∧ full_set_code "SWSH8-150" = "swsh8"
    ∧ full_set_code "swsh8-7" = "swsh8"
    ∧ (transform_card card cache).collection =
        "English;" ++ (dictGet cache (full_set_code card.id)).getD "Unknown" ++
          " Era; Raw Single" := by
  have hc : (dictGet cache (full_set_code card.id)).getD "Unknown" =
      "Unknown" := by
    rw [h]
    rfl
  refine ⟨?_, ?_, by decide, by decide, rfl⟩
  · show "English;" ++
        (dictGet cache (full_set_code card.id)).getD "Unknown" ++
        " Era; Raw Single" = _
    rw [hc]
    decide
  · show "English;" ++
        (dictGet cache (full_set_code card.id)).getD "Unknown" ++
        " Era;Raw Single" = _
    rw [hc]
    decide

/-- Witness for claim C7 at a card whose set code is missing from the cache. -/
theorem c7_lookup_fallback_witness :
    (transform_card ⟨"xy9-1", "Pika", "1", "https://x/i"⟩ exCache).collection =
      "English;Unknown Era; Raw Single"
    ∧ (transform_card_combined ⟨"xy9-1", "Pika", "1", "https://x/i"⟩
        exCache).collection = "English;Unknown Era;Raw Single"
    ∧ full_set_code "SWSH8-150" = "swsh8"
    ∧ full_set_code "swsh8-7" = "swsh8"
    ∧ (transform_card ⟨"xy9-1", "Pika", "1", "https://x/i"⟩
        exCache).collection =
      "English;" ++
        (dictGet exCache
            (full_set_code
              (RawCard.mk "xy9-1" "Pika" "1" "https://x/i").id)).getD
          "Unknown" ++ " Era; Raw Single" :=
  c7_lookup_fallback ⟨"xy9-1", "Pika", "1", "https://x/i"⟩ exCache (by decide)

/-- Claim C8: every row either normalizer produces keeps handleId = sku,
discountMode "amount", visible "true", inventory 0, weight 0, empty ribbon,
and card rows price 0. -/
theorem c8_row_invariants (card : RawCard) (cache : List (String × String))
    (p : RawProduct) (row : CatalogRow)
    (h : transform_product p = Except.ok row) :
    rowInv (transform_card card cache)
    ∧ (transform_card card cache).price = 0
    ∧ rowInv (transform_card_combined card cache)
    ∧ (transform_card_combined card cache).price = 0
    ∧ rowInv row := by
  refine ⟨⟨rfl, rfl, rfl, rfl, rfl, rfl⟩, rfl,
    ⟨rfl, rfl, rfl, rfl, rfl, rfl⟩, rfl, ?_⟩
  obtain ⟨pid, pname, pimg, plang, pser, pmv⟩ := p
  cases pid <;> cases pname <;> cases pimg <;> cases pmv <;>
    first
      | exact Except.noConfusion h
      | exact (Except.ok.inj h) ▸ ⟨rfl, rfl, rfl, rfl, rfl, rfl⟩

/-- Witness for claim C8 at the worked example card, cache and product. -/
theorem c8_row_invariants_witness :
    rowInv (transform_card exCard exCache)
    ∧ (transform_card exCard exCache).price = 0
    ∧ rowInv (transform_card_combined exCard exCache)
    ∧ (transform_card_combined exCard exCache).price = 0
    ∧ rowInv exRow :=
  c8_row_invariants exCard exCache exProduct exRow (by rfl)

/-- Claim C10: a product whose language key is absent or empty but whose
required keys are present still normalizes; the collection begins with an
empty segment before the first semicolon, and is ";Sealed Product" when the
series is also absent or empty. -/
theorem c10_absent_language (langv serv : Option String)
    (idv namev imgv : String) (mv : Rat)
    (hlang : langv = none ∨ langv = some "") :
    ∃ row,
      transform_product
          ⟨some idv, some namev, some imgv, langv, serv, some mv⟩ =
        Except.ok row
      ∧ (∃ rest, row.collection = ";" ++ rest)
      ∧ ((serv = none ∨ serv = some "") →
          row.collection = ";Sealed Product") := by
  rcases hlang with rfl | rfl <;>
  · cases serv with
    | none => exact ⟨_, rfl, ⟨"Sealed Product", rfl⟩, fun _ => rfl⟩
    | some s =>
      by_cases hse : s = ""
      · subst hse
        exact ⟨_, rfl, ⟨"Sealed Product", rfl⟩, fun _ => rfl⟩
      · refine ⟨_, rfl, ⟨pyTitle s ++ " era;Sealed Product", ?_⟩, ?_⟩
        · have h0 : pyCapitalize "" = "" := rfl
          simp [hse, pyTitle_ne_empty hse, strAppend_assoc, strEmpty_append,
            h0]
        · rintro (h2 | h2)
          · exact Option.noConfusion h2
          · exact absurd (Option.some.inj h2) hse

/-- Witness for claim C10 at a product with no language and no series keys. -/
theorem c10_absent_language_witness :
    ∃ row,
      transform_product
          ⟨some "p1", some "Box", some "https://x/p", none, none, some 1⟩ =
        Except.ok row
      ∧ (∃ rest, row.collection = ";" ++ rest)
      ∧ (((none : Option String) = none ∨ (none : Option String) = some "") →
          row.collection = ";Sealed Product") :=
  c10_absent_language none none "p1" "Box" "https://x/p" 1 (Or.inl rfl)
